import Mathlib

/-!
Verification of the prompt composer in `src/lib/prompt-engine.ts` of the
Festivly repository: the AI-assisted generator `generateSmartPrompt`, its
deterministic fallback `generateStaticPrompt`, and the event-context lookup
`getEventContext`.  JavaScript runtime behaviour (template-literal
interpolation of `undefined`, truthiness of strings, `||` defaulting,
`JSON.parse`, property access on parsed values) is embedded explicitly.
-/

namespace Festivly

/-! ### JavaScript string semantics

A JavaScript variable of TypeScript type `string | null | undefined` is
modelled as `Option String` (`none` for both `null` and `undefined`, which the
source only ever distinguishes by truthiness, where they agree). -/

/-- JS truthiness of a `string | null | undefined` value: `null`/`undefined`
and the empty string are falsy, every other string is truthy. -/
def jsTruthy : Option String → Bool
  | none => false
  | some s => s != ""

/-- JS template-literal interpolation of a possibly-undefined string:
`undefined` interpolates as the text `"undefined"`. -/
def jsInterp : Option String → String
  | none => "undefined"
  | some s => s

/-- JS `a || b` where both operands are `string`-or-`undefined` values
(as in `industryKeywords[industry] || industryKeywords["Education"]`):
the left operand is kept when it is truthy, otherwise the right one. -/
def jsOrUndef (a b : Option String) : Option String :=
  match a with
  | some s => if s = "" then b else some s
  | none => b

/-- The own property names of `Object.prototype`: a property read on a plain
object literal falls back to these when the key is not an own property, and
every one of them yields a truthy value (a built-in function, or for
`__proto__` the prototype object itself). -/
def objectPrototypeKeys : List String :=
  ["constructor", "hasOwnProperty", "isPrototypeOf", "propertyIsEnumerable",
   "toLocaleString", "toString", "valueOf", "__defineGetter__",
   "__defineSetter__", "__lookupGetter__", "__lookupSetter__", "__proto__"]

/-! ### JSON values

`Json` models the values `JSON.parse` can produce.  A number is kept as its
source lexeme; the claims under verification never inspect numeric fields, so
JavaScript float re-formatting of exotic lexemes is not modelled. -/

inductive Json where
  | null
  | bool (b : Bool)
  | num (lexeme : String)
  | str (s : String)
  | arr (elems : List Json)
  | obj (members : List (String × Json))

/-! JS `ToString` as used by template-literal interpolation of a parsed JSON
value: strings interpolate as themselves, `null` as `"null"`, booleans as
`"true"`/`"false"`, arrays via `Array.prototype.join(",")` (with `null`
elements contributing the empty string), and plain objects as
`"[object Object]"`. -/

mutual

def jsToString : Json → String
  | .null => "null"
  | .bool b => if b then "true" else "false"
  | .num lexeme => lexeme
  | .str s => s
  | .arr elems => jsArrJoin elems
  | .obj _ => "[object Object]"

def jsArrJoin : List Json → String
  | [] => ""
  | [j] => jsElemToString j
  | j :: rest => jsElemToString j ++ "," ++ jsArrJoin rest

def jsElemToString : Json → String
  | .null => ""
  | j => jsToString j

end

/-- JS template-literal interpolation of a possibly-undefined JSON value
(`${data.image_prompt}`): an absent property interpolates as `"undefined"`. -/
def jsInterpJson : Option Json → String
  | none => "undefined"
  | some j => jsToString j

/-- JS property access `v[key]` on a non-`null` parsed JSON value: on an
object, the value stored under `key` (the last one, matching how `JSON.parse`
resolves duplicate keys), `none` (`undefined`) when the key is absent or the
value is not an object. -/
def jsMember (v : Json) (key : String) : Option Json :=
  match v with
  | .obj kvs => kvs.foldl (fun acc kv => if kv.fst = key then some kv.snd else acc) none
  | _ => none

/-! ### `JSON.parse`

A fueled recursive-descent parser for the JSON grammar accepted by
JavaScript's `JSON.parse` (RFC 8259: the four JSON whitespace characters, no
trailing commas, `"0"`-prefixed integer parts rejected, string escapes
`\" \\ \/ \b \f \n \r \t \uXXXX`, raw control characters rejected).  `none`
models `JSON.parse` throwing a `SyntaxError`.  A `\uXXXX` escape is decoded
with `Char.ofNat` (lone surrogates, invalid as Lean characters, fall to the
null character; no claim exercises them). -/

/-- The four JSON whitespace characters. -/
def jsonWs (c : Char) : Bool :=
  c = ' ' || c = '\t' || c = '\n' || c = '\r'

/-- Drop leading JSON whitespace. -/
def skipWs : List Char → List Char
  | [] => []
  | c :: cs => if jsonWs c then skipWs cs else c :: cs

/-- Value of a hexadecimal digit. -/
def hexVal (c : Char) : Option Nat :=
  if '0' ≤ c ∧ c ≤ '9' then some (c.toNat - '0'.toNat)
  else if 'a' ≤ c ∧ c ≤ 'f' then some (c.toNat - 'a'.toNat + 10)
  else if 'A' ≤ c ∧ c ≤ 'F' then some (c.toNat - 'A'.toNat + 10)
  else none

/-- Decode the single-character JSON escapes. -/
def escChar (c : Char) : Option Char :=
  if c = '\"' then some '\"'
  else if c = '\\' then some '\\'
  else if c = '/' then some '/'
  else if c = 'b' then some (Char.ofNat 8)
  else if c = 'f' then some (Char.ofNat 12)
  else if c = 'n' then some '\n'
  else if c = 'r' then some '\r'
  else if c = 't' then some '\t'
  else none

/-- Body of a JSON string, after the opening quote; returns the decoded
string and the input remaining after the closing quote. -/
def parseStringBody : Nat → List Char → List Char → Option (String × List Char)
  | 0, _, _ => none
  | _ + 1, [], _ => none
  | fuel + 1, c :: cs, acc =>
    if c = '\"' then some (String.mk acc.reverse, cs)
    else if c = '\\' then
      match cs with
      | 'u' :: h1 :: h2 :: h3 :: h4 :: rest =>
        match hexVal h1, hexVal h2, hexVal h3, hexVal h4 with
        | some a, some b, some c2, some d =>
          parseStringBody fuel rest (Char.ofNat (((a * 16 + b) * 16 + c2) * 16 + d) :: acc)
        | _, _, _, _ => none
      | e :: rest =>
        match escChar e with
        | some d => parseStringBody fuel rest (d :: acc)
        | none => none
      | [] => none
    else if c.toNat < 32 then none
    else parseStringBody fuel cs (c :: acc)

/-- Longest leading run of decimal digits. -/
def spanDigits : List Char → List Char × List Char
  | [] => ([], [])
  | c :: cs =>
    if c.isDigit then
      let (ds, rest) := spanDigits cs
      (c :: ds, rest)
    else ([], c :: cs)

/-- Exponent part of a JSON number (after the mandatory-if-present `e`/`E`). -/
def parseExpPart (acc : List Char) (l : List Char) : Option (Json × List Char) :=
  match l with
  | 'e' :: rest | 'E' :: rest =>
    let (sign, l2) : List Char × List Char :=
      match rest with
      | '+' :: r => (['+'], r)
      | '-' :: r => (['-'], r)
      | r => ([], r)
    match spanDigits l2 with
    | ([], _) => none
    | (ds, l3) => some (.num (String.mk (acc ++ 'e' :: sign ++ ds)), l3)
  | _ => some (.num (String.mk acc), l)

/-- Fraction and exponent parts of a JSON number, after the integer part. -/
def parseFracPart (acc : List Char) (l : List Char) : Option (Json × List Char) :=
  match l with
  | '.' :: rest =>
    match spanDigits rest with
    | ([], _) => none
    | (ds, l2) => parseExpPart (acc ++ '.' :: ds) l2
  | _ => parseExpPart acc l

/-- A JSON number (`-?(0|[1-9][0-9]*)(\.[0-9]+)?([eE][+-]?[0-9]+)?`),
kept as its lexeme. -/
def parseNumber (l : List Char) : Option (Json × List Char) :=
  let (sign, l1) : List Char × List Char :=
    match l with
    | '-' :: r => (['-'], r)
    | r => ([], r)
  match l1 with
  | '0' :: rest => parseFracPart (sign ++ ['0']) rest
  | c :: rest =>
    if c.isDigit then
      let (ds, l2) := spanDigits rest
      parseFracPart (sign ++ c :: ds) l2
    else none
  | [] => none

mutual

/-- A JSON value, leading whitespace allowed. -/
def parseValue : Nat → List Char → Option (Json × List Char)
  | 0, _ => none
  | fuel + 1, l =>
    match skipWs l with
    | [] => none
    | c :: cs =>
      if c = '\x7b' then
        match skipWs cs with
        | '\x7d' :: rest => some (.obj [], rest)
        | l2 => parseMembers fuel l2 []
      else if c = '[' then
        match skipWs cs with
        | ']' :: rest => some (.arr [], rest)
        | l2 => parseElems fuel l2 []
      else if c = '\"' then
        match parseStringBody (cs.length + 1) cs [] with
        | some (s, rest) => some (.str s, rest)
        | none => none
      else
        match c :: cs with
        | 't' :: 'r' :: 'u' :: 'e' :: rest => some (.bool true, rest)
        | 'f' :: 'a' :: 'l' :: 's' :: 'e' :: rest => some (.bool false, rest)
        | 'n' :: 'u' :: 'l' :: 'l' :: rest => some (.null, rest)
        | l2 => parseNumber l2

/-- The members of a JSON object, positioned at a key (not at `}`). -/
def parseMembers : Nat → List Char → List (String × Json) → Option (Json × List Char)
  | 0, _, _ => none
  | fuel + 1, l, acc =>
    match skipWs l with
    | '\"' :: cs =>
      match parseStringBody (cs.length + 1) cs [] with
      | none => none
      | some (k, r1) =>
        match skipWs r1 with
        | ':' :: r2 =>
          match parseValue fuel r2 with
          | none => none
          | some (v, r3) =>
            match skipWs r3 with
            | ',' :: r4 => parseMembers fuel r4 ((k, v) :: acc)
            | '\x7d' :: r4 => some (.obj ((k, v) :: acc).reverse, r4)
            | _ => none
        | _ => none
    | _ => none

/-- The elements of a JSON array, positioned at a value (not at `]`). -/
def parseElems : Nat → List Char → List Json → Option (Json × List Char)
  | 0, _, _ => none
  | fuel + 1, l, acc =>
    match parseValue fuel l with
    | none => none
    | some (v, r1) =>
      match skipWs r1 with
      | ',' :: r2 => parseElems fuel r2 (v :: acc)
      | ']' :: r2 => some (.arr (v :: acc).reverse, r2)
      | _ => none

end

/-- JavaScript `JSON.parse`: parse one JSON value, allow trailing whitespace,
reject anything left over.  `none` models a thrown `SyntaxError`. -/
def jsonParse (s : String) : Option Json :=
  match parseValue (2 * s.length + 2) s.toList with
  | some (v, rest) => if (skipWs rest).isEmpty then some v else none
  | none => none

/-! ### The static keyword tables -/

/-- Modelled from the spec: the two static keyword tables are imported by
`prompt-engine.ts` from `festival-data.ts`, a file that is not among the
sources.  The spec says only that each maps a label to a descriptive keyword
phrase and has a named default entry (`"Education"`, `"Republic Day"`), so the
tables are kept abstract, as string-keyed partial maps passed explicitly to
the functions that read them. -/
structure KeywordTables where
  industryKeywords : String → Option String
  eventKeywords : String → Option String

/-! ### The prompt engine (`src/lib/prompt-engine.ts`) -/

/-- The `Record<string, string>` literal inside `getEventContext`
(`prompt-engine.ts` lines 102-106). -/
def eventContextMap : List (String × String) :=
  [("Lohri", "North Indian harvest festival, bonfires, winter night"),
   ("Makar Sankranti", "Day festival, kite flying, sun, harvest"),
   ("Republic Day", "National pride, military parade, flag colors")]

/-- What the JS expression `map[event] || "Celebration"` of `getEventContext`
can evaluate to: a string, or a truthy member inherited from
`Object.prototype` (a built-in function, or the prototype object for
`__proto__`), which `||` passes through unchanged. -/
inductive EventContextValue where
  | str (s : String)
  | protoMember (name : String)
deriving DecidableEq

/-- `getEventContext` (`prompt-engine.ts` lines 101-108):
`return map[event] || "Celebration";`.  `map` is a plain object literal, so
the read `map[event]` first consults the three own properties and then the
prototype chain: a key naming an `Object.prototype` member yields that
inherited, truthy member, which `||` returns as it is; only an `undefined`
read (or a falsy own value, never the case for the three entries) falls to
the default `"Celebration"`. -/
def getEventContext (event : String) : EventContextValue :=
  match eventContextMap.lookup event with
  | some s => if s = "" then .str "Celebration" else .str s
  | none =>
    if event ∈ objectPrototypeKeys then .protoMember event
    else .str "Celebration"

/-- The fixed template literal of `generateStaticPrompt`
(`prompt-engine.ts` lines 114-116), byte-for-byte: the literal spans three
source lines, so it contains a trailing space and a newline plus two spaces
of indentation before `Visuals:` and before `High quality`. -/
def staticBody (event industry indK evtK : String) : String :=
  event ++ " social media background, " ++ industry ++ " style. \n  Visuals: " ++
    indK ++ ", " ++ evtK ++ ". \n  High quality, photorealistic, 8k. NO TEXT."

/-- `generateStaticPrompt` (`prompt-engine.ts` lines 110-121).  The keyword
lookups use JS `||` defaulting; the interpolations convert a (theoretically)
still-undefined lookup result to `"undefined"` exactly as a template literal
would; the `Style:` clause is appended only when `brandStyleContext` is
truthy. -/
def generateStaticPrompt (tables : KeywordTables) (event industry : String)
    (brandStyleContext : Option String) : String :=
  let indKeywords := jsOrUndef (tables.industryKeywords industry) (tables.industryKeywords "Education")
  let evtKeywords := jsOrUndef (tables.eventKeywords event) (tables.eventKeywords "Republic Day")
  let prompt := staticBody event industry (jsInterp indKeywords) (jsInterp evtKeywords)
  if jsTruthy brandStyleContext then prompt ++ " Style: " ++ brandStyleContext.getD "" else prompt

/-- The fixed technical-constraints block of the success path
(`prompt-engine.ts` lines 84-90), byte-for-byte: everything of the template
literal between `${data.image_prompt}` and the style ternary. -/
def smartTail : String :=
  " \n    \n    TECHNICAL SPECS:\n    - High quality, 8k, photorealistic, professional photography\n    - NO text, NO watermarks, NO borders, NO frames\n    - Seamless, cinematic lighting, wide angle\n    - Style: "

/-- The success-path return value of `generateSmartPrompt`
(`prompt-engine.ts` lines 84-90): the parsed response's `image_prompt`
property interpolated (an absent property interpolates as `"undefined"`),
the fixed technical block, and the style ternary
`brandStyleContext ? brandStyleContext : 'Modern, clean, corporate'`. -/
def smartPrompt (imageField : Option Json) (brandStyleContext : Option String) : String :=
  jsInterpJson imageField ++ smartTail ++
    (if jsTruthy brandStyleContext then brandStyleContext.getD "" else "Modern, clean, corporate")

/-- Outcome of the awaited upstream call plus candidate-text extraction
(`prompt-engine.ts` lines 69-75).  `throws` covers every exception raised up
to and including the extraction expression
`result.response.candidates?.[0].content.parts[0].text` (network failure,
rejected promise, `TypeError` on an empty candidate or parts array);
`ok text` is a completed extraction, with `none` for an optional chain that
produced `undefined` (absent `candidates` or absent `text` field). -/
inductive UpstreamOutcome where
  | throws
  | ok (text : Option String)

/-- `generateSmartPrompt` (`prompt-engine.ts` lines 48-97), with the upstream
call's outcome passed explicitly.  Branches of the `try`:
an exception before or at extraction is caught and routed to
`generateStaticPrompt` (line 95); a falsy extracted text — `undefined` or the
empty string — triggers `throw new Error("No response...")` (line 77), also
caught; a `JSON.parse` `SyntaxError` (line 80) is caught; a `null` parse
result makes `data.reasoning` (line 81) throw a `TypeError`, also caught;
otherwise the success template is returned (lines 84-90). -/
def generateSmartPrompt (tables : KeywordTables) (upstream : UpstreamOutcome)
    (event industry : String) (brandStyleContext : Option String) : String :=
  match upstream with
  | .throws => generateStaticPrompt tables event industry brandStyleContext
  | .ok none => generateStaticPrompt tables event industry brandStyleContext
  | .ok (some t) =>
    if t = "" then generateStaticPrompt tables event industry brandStyleContext
    else
      match jsonParse t with
      | none => generateStaticPrompt tables event industry brandStyleContext
      | some Json.null => generateStaticPrompt tables event industry brandStyleContext
      | some data => smartPrompt (jsMember data "image_prompt") brandStyleContext

/-! ### Auxiliary definitions for stating the claims -/

/-- The fallback template exactly as the specification quotes it: a
single-line string, with single spaces where the source literal has a line
break and indentation.  Used to compare the spec's quoted template against
the implementation. -/
def staticBodySpecQuoted (event industry indK evtK : String) : String :=
  event ++ " social media background, " ++ industry ++ " style. Visuals: " ++
    indK ++ ", " ++ evtK ++ ". High quality, photorealistic, 8k. NO TEXT."

/-- The `Style:` clause appended by `generateStaticPrompt` for a truthy
brand-style context, and the empty string otherwise. -/
def styleClause (brandStyleContext : Option String) : String :=
  if jsTruthy brandStyleContext then " Style: " ++ brandStyleContext.getD "" else ""

/-- A concrete pair of keyword tables used to instantiate the abstract
tables in witnesses and counterexamples: each table holds exactly its named
default entry. -/
def sampleTables : KeywordTables where
  industryKeywords := fun k => if k = "Education" then some "books, chalkboards, bright classrooms" else none
  eventKeywords := fun k => if k = "Republic Day" then some "tricolor, flags, parade" else none

/-- `hay` contains `needle` as a contiguous substring. -/
def hasSubstr (hay needle : String) : Prop :=
  ∃ p q, hay = p ++ (needle ++ q)

/-! ### Helper lemmas -/

theorem append_ne_empty_right (a b : String) (h : b ≠ "") : a ++ b ≠ "" := by
  intro hc
  have hd := congrArg String.data hc
  simp [String.data_append] at hd
  exact h (String.ext hd.2)

theorem append_ne_empty_left (a b : String) (h : a ≠ "") : a ++ b ≠ "" := by
  intro hc
  have hd := congrArg String.data hc
  simp [String.data_append] at hd
  exact h (String.ext hd.1)

theorem staticBody_ne_empty (e i a b : String) : staticBody e i a b ≠ "" :=
  append_ne_empty_right _ _ (by decide)

theorem generateStaticPrompt_ne_empty (tables : KeywordTables) (e i : String)
    (c : Option String) : generateStaticPrompt tables e i c ≠ "" := by
  simp only [generateStaticPrompt]
  split
  · exact append_ne_empty_left _ _ (append_ne_empty_right _ _ (by decide))
  · exact staticBody_ne_empty _ _ _ _

theorem smartPrompt_ne_empty (ip : Option Json) (c : Option String) :
    smartPrompt ip c ≠ "" :=
  append_ne_empty_left _ _ (append_ne_empty_right _ _ (by decide))

/-- `generateStaticPrompt`, written as the template body followed by the
(possibly empty) style clause. -/
theorem static_template_eq (tables : KeywordTables) (e i : String) (c : Option String) :
    generateStaticPrompt tables e i c =
      staticBody e i
        (jsInterp (jsOrUndef (tables.industryKeywords i) (tables.industryKeywords "Education")))
        (jsInterp (jsOrUndef (tables.eventKeywords e) (tables.eventKeywords "Republic Day"))) ++
      styleClause c := by
  simp only [generateStaticPrompt, styleClause]
  cases h : jsTruthy c
  · simp [String.append_empty]
  · simp [String.append_assoc]

/-- An empty-string brand-style context is falsy, so the fallback treats it
exactly like an absent one. -/
theorem static_empty_ctx (tables : KeywordTables) (e i : String) :
    generateStaticPrompt tables e i (some "") = generateStaticPrompt tables e i none := rfl

theorem hasSubstr_append_left (a b n : String) (h : hasSubstr a n) :
    hasSubstr (a ++ b) n := by
  obtain ⟨p, q, rfl⟩ := h
  exact ⟨p, q ++ b, by simp [String.append_assoc]⟩

theorem hasSubstr_append_right (a b n : String) (h : hasSubstr b n) :
    hasSubstr (a ++ b) n := by
  obtain ⟨p, q, rfl⟩ := h
  exact ⟨a ++ p, q, (String.append_assoc a p (n ++ q)).symm⟩

theorem staticBody_noText (e i a b : String) :
    hasSubstr (staticBody e i a b) "NO TEXT." := by
  have h4 : ". \n  High quality, photorealistic, 8k. NO TEXT." =
      ". \n  High quality, photorealistic, 8k. " ++ ("NO TEXT." ++ "") := by decide
  refine ⟨e ++ " social media background, " ++ i ++ " style. \n  Visuals: " ++ a ++ ", " ++ b ++
    ". \n  High quality, photorealistic, 8k. ", "", ?_⟩
  simp only [staticBody]
  rw [h4]
  simp only [String.append_assoc]

theorem generateStaticPrompt_noText (tables : KeywordTables) (e i : String)
    (c : Option String) : hasSubstr (generateStaticPrompt tables e i c) "NO TEXT." := by
  simp only [generateStaticPrompt]
  split
  · exact hasSubstr_append_left _ _ _ (hasSubstr_append_left _ _ _ (staticBody_noText _ _ _ _))
  · exact staticBody_noText _ _ _ _

set_option maxRecDepth 8192 in
theorem smartPrompt_noTextBlock (ip : Option Json) (c : Option String) :
    hasSubstr (smartPrompt ip c) "NO text, NO watermarks, NO borders, NO frames" := by
  have hsplit : smartTail =
      " \n    \n    TECHNICAL SPECS:\n    - High quality, 8k, photorealistic, professional photography\n    - " ++
      ("NO text, NO watermarks, NO borders, NO frames" ++
        "\n    - Seamless, cinematic lighting, wide angle\n    - Style: ") := by decide
  refine ⟨jsInterpJson ip ++
    " \n    \n    TECHNICAL SPECS:\n    - High quality, 8k, photorealistic, professional photography\n    - ",
    "\n    - Seamless, cinematic lighting, wide angle\n    - Style: " ++
      (if jsTruthy c then c.getD "" else "Modern, clean, corporate"), ?_⟩
  simp only [smartPrompt]
  rw [hsplit]
  simp only [String.append_assoc]

/-! ### The claims -/

/-- C1: for every input triple and every outcome of the upstream call — so on
both the AI-assisted path and the fallback path — `generateSmartPrompt` is a
total function (it never propagates an exception, every failure branch being
routed to `generateStaticPrompt`) and its result is a non-empty string. -/
theorem c1_compose_total_nonempty (tables : KeywordTables) (u : UpstreamOutcome)
    (e i : String) (c : Option String) : generateSmartPrompt tables u e i c ≠ "" := by
  cases u with
  | throws => exact generateStaticPrompt_ne_empty tables e i c
  | ok t =>
    cases t with
    | none => exact generateStaticPrompt_ne_empty tables e i c
    | some s =>
      simp only [generateSmartPrompt]
      split
      · exact generateStaticPrompt_ne_empty tables e i c
      · split
        · exact generateStaticPrompt_ne_empty tables e i c
        · exact generateStaticPrompt_ne_empty tables e i c
        · exact smartPrompt_ne_empty _ _

/-- C3: whenever the primary path fails — the upstream call throws, the
extracted candidate text is absent, or the text does not parse as JSON —
`generateSmartPrompt` returns exactly the string `generateStaticPrompt`
returns for the same inputs; the error is swallowed, never re-raised. -/
theorem c3_failure_falls_back (tables : KeywordTables) (e i : String) (c : Option String) :
    generateSmartPrompt tables .throws e i c = generateStaticPrompt tables e i c ∧
    generateSmartPrompt tables (.ok none) e i c = generateStaticPrompt tables e i c ∧
    ∀ t, jsonParse t = none →
      generateSmartPrompt tables (.ok (some t)) e i c = generateStaticPrompt tables e i c := by
  refine ⟨rfl, rfl, ?_⟩
  intro t ht
  by_cases h : t = ""
  · subst h; rfl
  · simp only [generateSmartPrompt, if_neg h, ht]

theorem c3_witness :
    generateSmartPrompt sampleTables .throws "Lohri" "Education" none =
      generateStaticPrompt sampleTables "Lohri" "Education" none ∧
    generateSmartPrompt sampleTables (.ok (some "not json")) "Lohri" "Education" none =
      generateStaticPrompt sampleTables "Lohri" "Education" none :=
  ⟨(c3_failure_falls_back sampleTables "Lohri" "Education" none).1,
   (c3_failure_falls_back sampleTables "Lohri" "Education" none).2.2 "not json" rfl⟩

/-- C8: the fallback `generateStaticPrompt` is a pure deterministic function:
two calls with identical inputs (the static keyword tables it reads and the
three arguments) return byte-identical strings — in this embedding it depends
on nothing but those inputs. -/
theorem c8_static_deterministic (t1 t2 : KeywordTables) (e1 e2 i1 i2 : String)
    (b1 b2 : Option String) (ht : t1 = t2) (he : e1 = e2) (hi : i1 = i2) (hb : b1 = b2) :
    generateStaticPrompt t1 e1 i1 b1 = generateStaticPrompt t2 e2 i2 b2 := by
  subst ht he hi hb
  rfl

theorem c8_witness :
    generateStaticPrompt sampleTables "Lohri" "Education" (some "warm") =
      generateStaticPrompt sampleTables "Lohri" "Education" (some "warm") :=
  c8_static_deterministic sampleTables sampleTables "Lohri" "Lohri" "Education" "Education"
    (some "warm") (some "warm") rfl rfl rfl rfl

/-- C9: an empty-string brand-style context, being falsy, is treated as
absent by both paths: `generateSmartPrompt` (under every upstream outcome)
and `generateStaticPrompt` behave exactly as with `none`, and on the success
path the style clause falls back to the literal default
"Modern, clean, corporate". -/
theorem c9_empty_context_treated_absent (tables : KeywordTables) (u : UpstreamOutcome)
    (e i : String) :
    generateSmartPrompt tables u e i (some "") = generateSmartPrompt tables u e i none ∧
    generateStaticPrompt tables e i (some "") = generateStaticPrompt tables e i none ∧
    ∀ ip, smartPrompt ip (some "") =
      jsInterpJson ip ++ smartTail ++ "Modern, clean, corporate" := by
  refine ⟨?_, static_empty_ctx tables e i, fun ip => rfl⟩
  cases u with
  | throws => exact static_empty_ctx tables e i
  | ok t =>
    cases t with
    | none => exact static_empty_ctx tables e i
    | some s =>
      simp only [generateSmartPrompt]
      split
      · exact static_empty_ctx tables e i
      · cases hj : jsonParse s with
        | none => exact static_empty_ctx tables e i
        | some v =>
          cases v with
          | null => exact static_empty_ctx tables e i
          | bool b => rfl
          | num l => rfl
          | str s2 => rfl
          | arr xs => rfl
          | obj kvs => rfl

/-- C10: every string `generateSmartPrompt` can return carries an explicit
no-text constraint: the fallback output always contains "NO TEXT.", the
success-path output always contains
"NO text, NO watermarks, NO borders, NO frames", and hence every result
contains one of the two. -/
theorem c10_no_text_constraint (tables : KeywordTables) (u : UpstreamOutcome)
    (e i : String) (c : Option String) :
    hasSubstr (generateStaticPrompt tables e i c) "NO TEXT." ∧
    (∀ ip, hasSubstr (smartPrompt ip c) "NO text, NO watermarks, NO borders, NO frames") ∧
    (hasSubstr (generateSmartPrompt tables u e i c) "NO TEXT." ∨
     hasSubstr (generateSmartPrompt tables u e i c)
       "NO text, NO watermarks, NO borders, NO frames") := by
  refine ⟨generateStaticPrompt_noText tables e i c, fun ip => smartPrompt_noTextBlock ip c, ?_⟩
  cases u with
  | throws => exact Or.inl (generateStaticPrompt_noText tables e i c)
  | ok t =>
    cases t with
    | none => exact Or.inl (generateStaticPrompt_noText tables e i c)
    | some s =>
      simp only [generateSmartPrompt]
      split
      · exact Or.inl (generateStaticPrompt_noText tables e i c)
      · split
        · exact Or.inl (generateStaticPrompt_noText tables e i c)
        · exact Or.inl (generateStaticPrompt_noText tables e i c)
        · exact Or.inr (smartPrompt_noTextBlock _ c)

/-- C4, counterexample: at concrete inputs the fallback output is not the
single-line template the claim quotes — the source template literal spans
three lines, so the output carries a trailing space, a newline and two spaces
of indentation before "Visuals:" and before "High quality" where the quoted
template has single spaces. -/
theorem c4_counterexample :
    generateStaticPrompt sampleTables "Lohri" "Education" none ≠
      staticBodySpecQuoted "Lohri" "Education" "books, chalkboards, bright classrooms"
        "tricolor, flags, parade" := by
  decide

/-- C4 (amended): `generateStaticPrompt` returns the concatenation of the
fixed template built from the looked-up industry and event keyword phrases —
with the source literal's exact whitespace: `"<event> social media
background, <industry> style. \n  Visuals: <industry keywords>, <event
keywords>. \n  High quality, photorealistic, 8k. NO TEXT."` — followed by the
optional Style clause. -/
theorem c4_static_template (tables : KeywordTables) (e i : String) (c : Option String) :
    generateStaticPrompt tables e i c =
      staticBody e i
        (jsInterp (jsOrUndef (tables.industryKeywords i) (tables.industryKeywords "Education")))
        (jsInterp (jsOrUndef (tables.eventKeywords e) (tables.eventKeywords "Republic Day"))) ++
      styleClause c :=
  static_template_eq tables e i c

/-- C5, counterexample: "constructor" is not a key of the event-context
table, yet the code does not default its brief context to "Celebration":
the object-literal read `map["constructor"]` finds the inherited
`Object.prototype.constructor`, a truthy function, which `||` returns
unchanged. -/
theorem c5_counterexample :
    eventContextMap.lookup "constructor" = none ∧
    getEventContext "constructor" = EventContextValue.protoMember "constructor" ∧
    getEventContext "constructor" ≠ EventContextValue.str "Celebration" := by
  refine ⟨rfl, rfl, ?_⟩
  decide

/-- C5 (amended): an industry absent from the industry table is silently
replaced by the "Education" entry and an event absent from the event table
by the "Republic Day" entry; an event absent from the event-context table
gets the default context "Celebration" only when it does not name an
inherited `Object.prototype` member — for a key such as "constructor" or
"toString" the object-literal read yields that inherited truthy member,
which `||` returns instead of the default.  No unknown key raises an
error. -/
theorem c5_unknown_keys_default (tables : KeywordTables) (e i : String) (c : Option String) :
    (tables.industryKeywords i = none →
      generateStaticPrompt tables e i c =
        staticBody e i (jsInterp (tables.industryKeywords "Education"))
          (jsInterp (jsOrUndef (tables.eventKeywords e) (tables.eventKeywords "Republic Day"))) ++
        styleClause c) ∧
    (tables.eventKeywords e = none →
      generateStaticPrompt tables e i c =
        staticBody e i
          (jsInterp (jsOrUndef (tables.industryKeywords i) (tables.industryKeywords "Education")))
          (jsInterp (tables.eventKeywords "Republic Day")) ++
        styleClause c) ∧
    (eventContextMap.lookup e = none → e ∉ objectPrototypeKeys →
      getEventContext e = EventContextValue.str "Celebration") ∧
    (eventContextMap.lookup e = none → e ∈ objectPrototypeKeys →
      getEventContext e = EventContextValue.protoMember e) := by
  refine ⟨?_, ?_, ?_, ?_⟩
  · intro h
    rw [static_template_eq, h]
    rfl
  · intro h
    rw [static_template_eq, h]
    rfl
  · intro h hm
    simp only [getEventContext, h]
    rw [if_neg hm]
  · intro h hm
    simp only [getEventContext, h]
    rw [if_pos hm]

theorem c5_witness :
    generateStaticPrompt sampleTables "SomeFest" "SomeBiz" none =
      staticBody "SomeFest" "SomeBiz" (jsInterp (sampleTables.industryKeywords "Education"))
        (jsInterp (jsOrUndef (sampleTables.eventKeywords "SomeFest")
          (sampleTables.eventKeywords "Republic Day"))) ++
      styleClause none ∧
    getEventContext "SomeFest" = EventContextValue.str "Celebration" ∧
    getEventContext "valueOf" = EventContextValue.protoMember "valueOf" :=
  ⟨(c5_unknown_keys_default sampleTables "SomeFest" "SomeBiz" none).1 rfl,
   (c5_unknown_keys_default sampleTables "SomeFest" "SomeBiz" none).2.2.1 rfl (by decide),
   (c5_unknown_keys_default sampleTables "valueOf" "SomeBiz" none).2.2.2 rfl (by decide)⟩

/-- C7: for every event and industry, when the brand-style context is absent
the fallback output is exactly the clause-free template body (no "Style:"
clause is appended); when it is a present non-empty string `s`, the output is
exactly that body with the clause `" Style: " ++ s` appended verbatim at the
end. -/
theorem c7_style_clause (tables : KeywordTables) (e i : String) :
    generateStaticPrompt tables e i none =
      staticBody e i
        (jsInterp (jsOrUndef (tables.industryKeywords i) (tables.industryKeywords "Education")))
        (jsInterp (jsOrUndef (tables.eventKeywords e) (tables.eventKeywords "Republic Day"))) ∧
    ∀ s, s ≠ "" →
      generateStaticPrompt tables e i (some s) =
        staticBody e i
          (jsInterp (jsOrUndef (tables.industryKeywords i) (tables.industryKeywords "Education")))
          (jsInterp (jsOrUndef (tables.eventKeywords e) (tables.eventKeywords "Republic Day"))) ++
        (" Style: " ++ s) := by
  refine ⟨rfl, ?_⟩
  intro s hs
  rw [static_template_eq]
  simp only [styleClause, jsTruthy]
  rw [if_pos (by simp [hs])]
  rfl

theorem c7_witness :
    generateStaticPrompt sampleTables "Lohri" "Education" none =
      staticBody "Lohri" "Education"
        (jsInterp (jsOrUndef (sampleTables.industryKeywords "Education")
          (sampleTables.industryKeywords "Education")))
        (jsInterp (jsOrUndef (sampleTables.eventKeywords "Lohri")
          (sampleTables.eventKeywords "Republic Day"))) ∧
    generateStaticPrompt sampleTables "Lohri" "Education" (some "warm, earthy") =
      staticBody "Lohri" "Education"
        (jsInterp (jsOrUndef (sampleTables.industryKeywords "Education")
          (sampleTables.industryKeywords "Education")))
        (jsInterp (jsOrUndef (sampleTables.eventKeywords "Lohri")
          (sampleTables.eventKeywords "Republic Day"))) ++
      (" Style: " ++ "warm, earthy") :=
  ⟨(c7_style_clause sampleTables "Lohri" "Education").1,
   (c7_style_clause sampleTables "Lohri" "Education").2 "warm, earthy" (by decide)⟩

end Festivly
